import Mathlib

/-!
Verification development for the terminal session manager of a
point-of-sale client (reader lifecycle, payment-intent lifecycle, and
the cancel/timeout races around payment collection).

The definitions below are shallow embeddings of the TypeScript source:

  * ApiClient            from src/services/api-client.ts
  * TerminalService      from src/services/terminal-service.ts
  * StripeTerminalService from src/services/stripeTerminal.ts
  * cancelPaymentCollection from the payment-cancellation document
  * handlePayment        from src/views/HomePage.vue

External collaborators (the backend HTTP API and the device SDK) are
modelled as explicit environment parameters: each embedded operation
takes the outcome of every external call it performs as an argument,
so one Lean evaluation corresponds to one completed run of the
asynchronous TypeScript operation.
-/

/-- Decidable equality for Except, used by the environment records. -/
instance {ε α : Type} [DecidableEq ε] [DecidableEq α] : DecidableEq (Except ε α) := fun x y =>
  match x, y with
  | .ok a, .ok b =>
      if h : a = b then .isTrue (congrArg Except.ok h)
      else .isFalse (fun hh => h (Except.ok.inj hh))
  | .error a, .error b =>
      if h : a = b then .isTrue (congrArg Except.error h)
      else .isFalse (fun hh => h (Except.error.inj hh))
  | .ok _, .error _ => .isFalse (fun hh => Except.noConfusion hh)
  | .error _, .ok _ => .isFalse (fun hh => Except.noConfusion hh)

namespace Terminal

/-- Closed error-code taxonomy of the terminal core. -/
inductive ErrorCode where
  | CONNECTION_TOKEN_FAILED
  | NO_READERS_FOUND
  | READER_CONNECTION_FAILED
  | READER_DISCONNECTION_FAILED
  | LOCATION_ID_FETCH_FAILED
  | PAYMENT_INTENT_FAILED
  | PAYMENT_COLLECTION_FAILED
  | PAYMENT_PROCESSING_FAILED
  | OPERATION_TIMEOUT
  | CONFIG_INVALID
  deriving DecidableEq, Repr

/-- TerminalError carries an error code and a human-readable message. -/
structure TerminalError where
  code : ErrorCode
  message : String
  deriving DecidableEq, Repr

/-- Discriminated union used as the return contract of fallible operations. -/
inductive Result (α : Type) where
  | success (data : α)
  | failure (error : TerminalError)
  deriving DecidableEq, Repr

/-- Whether a result is a failure carrying the given error code. -/
def Result.failsWith {α : Type} : Result α → ErrorCode → Bool
  | .failure e, c => e.code == c
  | .success _, _ => false

/-- Reader descriptor. The TypeScript record has further descriptor
fields (serial number, network address, software version, timestamps);
only the identifier is ever inspected by the embedded operations, so the
other fields are collapsed into a label. -/
structure Reader where
  id : String
  label : String
  deriving DecidableEq, Repr

/-- Server-issued payment intent snapshot. Only the fields the embedded
code reads are kept; the remaining response fields are never inspected. -/
structure PaymentIntent where
  id : String
  amount : Int
  currency : String
  client_secret : String
  status : String
  deriving DecidableEq, Repr

/-- JavaScript truthiness of an optional string: undefined, null and the
empty string are falsy. -/
def jsTruthy : Option String → Bool
  | none => false
  | some s => s ≠ ""

/-- JavaScript Math.round: round half toward positive infinity, which on
nonnegative inputs is exactly round-half-up. -/
def jsRound (q : ℚ) : ℤ := ⌊q + 1/2⌋

namespace ApiClient

/-- Embeds ApiClient.getLocationId. The environment is the outcome of
the HTTP GET: a rejection message, or the resolved optional
data.data.location_id field (missing levels collapse to none).
The source throws a TerminalError with code READER_CONNECTION_FAILED
when the id is falsy and catches every throw into a failure Result. -/
def getLocationId (resp : Except String (Option String)) : Result String :=
  match resp with
  | .error _ =>
      .failure { code := .READER_CONNECTION_FAILED, message := "An unknown error occurred" }
  | .ok locId =>
      if jsTruthy locId then .success (locId.getD "")
      else .failure { code := .READER_CONNECTION_FAILED, message := "Invalid location ID response" }

/-- Request body posted to the payment-intent endpoint. -/
structure PaymentIntentRequest where
  amount : ℤ
  currency : String
  deriving DecidableEq, Repr

/-- The request body ApiClient.createPaymentIntent builds: the amount in
minor units is Math.round(amount * 100). -/
def paymentIntentRequest (amount : ℚ) (currency : String) : PaymentIntentRequest :=
  { amount := jsRound (amount * 100), currency := currency }

/-- Embeds ApiClient.createPaymentIntent. Returns the posted request
body together with the Result. The environment is the outcome of the
HTTP POST: a rejection, or the resolved optional data.data payment
intent. A missing or empty client_secret is falsy and yields
PAYMENT_INTENT_FAILED; the catch converts any non-TerminalError throw
into PAYMENT_INTENT_FAILED as well. -/
def createPaymentIntent (amount : ℚ) (currency : String)
    (resp : Except String (Option PaymentIntent)) :
    PaymentIntentRequest × Result PaymentIntent :=
  (paymentIntentRequest amount currency,
    match resp with
    | .error _ =>
        .failure { code := .PAYMENT_INTENT_FAILED, message := "An unknown error occurred" }
    | .ok none =>
        .failure { code := .PAYMENT_INTENT_FAILED, message := "Invalid payment intent response" }
    | .ok (some pi) =>
        if pi.client_secret = "" then
          .failure { code := .PAYMENT_INTENT_FAILED, message := "Invalid payment intent response" }
        else .success pi)

end ApiClient

/-- Reactive session state of TerminalService, field for field. -/
structure SessionState where
  isInitialized : Bool
  isLoading : Bool
  isConnected : Bool
  lastError : Option String
  currentReader : Option Reader
  availableReaders : List Reader
  lastPaymentIntent : Option PaymentIntent
  deriving DecidableEq, Repr

/-- TerminalService instance state: the reactive session state plus
whether the private terminal handle is non-null. -/
structure Svc where
  state : SessionState
  terminal : Bool
  deriving DecidableEq, Repr

/-- State of a freshly constructed TerminalService. -/
def initialState : SessionState :=
  { isInitialized := false, isLoading := false, isConnected := false,
    lastError := none, currentReader := none, availableReaders := [],
    lastPaymentIntent := none }

/-- A freshly constructed TerminalService: initial state, null handle. -/
def initialSvc : Svc := { state := initialState, terminal := false }

/-- Resolved value of the device-SDK connectReader call. -/
structure SdkConnectResult where
  error : Option String
  reader : Option Reader
  deriving DecidableEq, Repr

/-- Resolved value of the device-SDK discoverReaders call. -/
structure SdkDiscoverResult where
  error : Option String
  discoveredReaders : Option (List Reader)
  deriving DecidableEq, Repr

/-- Resolved value of the device-SDK processPayment call. -/
structure SdkProcessResult where
  error : Option String
  paymentIntent : Option PaymentIntent
  deriving DecidableEq, Repr

/-- Environment of one discoverReaders run: the location-endpoint
response consumed through ApiClient.getLocationId, and the outcome of
the device-SDK discoverReaders call. -/
structure DiscoverEnv where
  locResp : Except String (Option String)
  sdk : Except String SdkDiscoverResult
  deriving DecidableEq, Repr

/-- Commands issued to the device SDK, recorded as a trace. -/
inductive SdkCmd where
  | connect (r : Reader)
  | disconnectCmd
  | cancelCollect
  deriving DecidableEq, Repr

namespace TerminalService

/-- Embeds TerminalService.initialize. The environment is the outcome
of the try block around StripeTerminal.create (whose token and
disconnect callbacks are installed, see onUnexpectedReaderDisconnect
below). On success the handle is set and isInitialized becomes true; a
throw records lastError and is rethrown (returned as some message);
the finally clause resets isLoading in both cases. -/
def initializeService (env : Except String Unit) (v : Svc) : Svc × Option String :=
  match env with
  | .ok _ =>
      ({ state := { v.state with isLoading := false, isInitialized := true },
         terminal := true }, none)
  | .error m =>
      ({ v with state := { v.state with isLoading := false, lastError := some m } }, some m)

/-- Embeds the onUnexpectedReaderDisconnect callback wired in
initialize: forces isConnected false, clears currentReader, records
lastError. -/
def onUnexpectedReaderDisconnect (v : Svc) : Svc :=
  { v with state := { v.state with
      isConnected := false, currentReader := none,
      lastError := some "Reader disconnected unexpectedly" } }

/-- Embeds TerminalService.discoverReaders. A failed location-id fetch
is thrown as LOCATION_ID_FETCH_FAILED and caught by the same method,
which rewraps every caught error as NO_READERS_FOUND; an SDK result
with an error field is likewise thrown as NO_READERS_FOUND. On success
availableReaders is replaced wholesale; the finally clause resets
isLoading on every path. -/
def discoverReaders (env : DiscoverEnv) (v : Svc) : Svc × Result (List Reader) :=
  match ApiClient.getLocationId env.locResp with
  | .failure locErr =>
      ({ v with state := { v.state with isLoading := false, lastError := some locErr.message } },
       .failure { code := .NO_READERS_FOUND, message := locErr.message })
  | .success _ =>
      match env.sdk with
      | .error m =>
          ({ v with state := { v.state with isLoading := false, lastError := some m } },
           .failure { code := .NO_READERS_FOUND, message := m })
      | .ok res =>
          match res.error with
          | some m =>
              ({ v with state := { v.state with isLoading := false, lastError := some m } },
               .failure { code := .NO_READERS_FOUND, message := m })
          | none =>
              let readers := res.discoveredReaders.getD []
              ({ v with state := { v.state with
                  isLoading := false,
                  availableReaders := readers } },
               .success readers)

/-- Embeds TerminalService.connectReader. The SDK connect call is
always issued (returned in the command trace). On a resolved call with
no error field, currentReader becomes the SDK reader if present, else
the argument, and isConnected becomes true; rejections and error
fields are caught into READER_CONNECTION_FAILED; the finally clause
resets isLoading on every path. -/
def connectReader (r : Reader) (env : Except String SdkConnectResult) (v : Svc) :
    Svc × Result Reader × List SdkCmd :=
  match env with
  | .error m =>
      ({ v with state := { v.state with isLoading := false, lastError := some m } },
       .failure { code := .READER_CONNECTION_FAILED, message := m },
       [.connect r])
  | .ok res =>
      match res.error with
      | some m =>
          ({ v with state := { v.state with isLoading := false, lastError := some m } },
           .failure { code := .READER_CONNECTION_FAILED, message := m },
           [.connect r])
      | none =>
          let rd := res.reader.getD r
          ({ v with state := { v.state with
              isLoading := false,
              currentReader := some rd, isConnected := true } },
           .success rd,
           [.connect r])

/-- Embeds TerminalService.disconnect. On a successful SDK disconnect,
only currentReader is cleared; isConnected is left untouched. On a
failed SDK disconnect a READER_DISCONNECTION_FAILED TerminalError is
constructed (returned here as the recorded error) and its message
stored in lastError, while currentReader is not cleared; the finally
clause resets isLoading in both cases and nothing is rethrown. -/
def disconnect (env : Except String Unit) (v : Svc) : Svc × Option TerminalError :=
  match env with
  | .ok _ =>
      ({ v with state := { v.state with isLoading := false, currentReader := none } }, none)
  | .error m =>
      ({ v with state := { v.state with isLoading := false, lastError := some m } },
       some { code := .READER_DISCONNECTION_FAILED, message := m })

/-- Embeds TerminalService.createPaymentIntent: delegates to
ApiClient.createPaymentIntent, stores lastPaymentIntent on success,
rewraps failures as PAYMENT_INTENT_FAILED; finally resets isLoading. -/
def createPaymentIntent (amount : ℚ) (currency : String)
    (resp : Except String (Option PaymentIntent)) (v : Svc) : Svc × Result PaymentIntent :=
  match (ApiClient.createPaymentIntent amount currency resp).2 with
  | .failure e =>
      ({ v with state := { v.state with isLoading := false } },
       .failure { code := .PAYMENT_INTENT_FAILED, message := e.message })
  | .success pi =>
      ({ v with state := { v.state with isLoading := false, lastPaymentIntent := some pi } },
       .success pi)

/-- Embeds the active TerminalService.collectPaymentMethod: if the
terminal handle is null it throws PAYMENT_COLLECTION_FAILED before the
try block; otherwise it awaits the SDK collect call with no timeout
race around it (the timeoutMs parameter is accepted but never used) and
never issues a cancel-collection command (trace always empty). A
rejected SDK call is caught into a PAYMENT_COLLECTION_FAILED failure
Result and recorded in lastError; isLoading is never touched. -/
def collectPaymentMethod (timeoutMs : ℕ) (env : Except String PaymentIntent) (v : Svc) :
    Svc × Except TerminalError (Result PaymentIntent) × List SdkCmd :=
  if v.terminal = false then
    (v, .error { code := .PAYMENT_COLLECTION_FAILED, message := "Terminal is not initialized" }, [])
  else
    match env with
    | .ok pi => (v, .ok (.success pi), [])
    | .error m =>
        ({ v with state := { v.state with lastError := some m } },
         .ok (.failure { code := .PAYMENT_COLLECTION_FAILED, message := m }), [])

/-- Embeds TerminalService.processPayment: a rejected SDK call or an
error field in the resolved value is caught into
PAYMENT_PROCESSING_FAILED and recorded in lastError; finally resets
isLoading on every path. -/
def processPayment (env : Except String SdkProcessResult) (v : Svc) :
    Svc × Result (Option PaymentIntent) :=
  match env with
  | .error m =>
      ({ v with state := { v.state with isLoading := false, lastError := some m } },
       .failure { code := .PAYMENT_PROCESSING_FAILED, message := m })
  | .ok res =>
      match res.error with
      | some m =>
          ({ v with state := { v.state with isLoading := false, lastError := some m } },
           .failure { code := .PAYMENT_PROCESSING_FAILED, message := m })
      | none =>
          ({ v with state := { v.state with isLoading := false } },
           .success res.paymentIntent)

/-- Environment of one connectAndInitializeReader run. -/
structure CAIEnv where
  initEnv : Except String Unit
  discEnv : Except String Unit
  discoverEnv : DiscoverEnv
  connectEnv : Except String SdkConnectResult
  deriving DecidableEq, Repr

/-- A thrown JavaScript value: either a plain Error message or a
TerminalError object. -/
inductive Thrown where
  | raw (message : String)
  | te (e : TerminalError)
  deriving DecidableEq, Repr

/-- The tail of connectAndInitializeReader after the initialize-if-
needed step: disconnect first if connected, discover, throw
NO_READERS_FOUND on an empty or failed discovery, then connect to the
first reader, rethrowing a connect failure as
READER_CONNECTION_FAILED. -/
def connectAndInitializeRest (env : CAIEnv) (v1 : Svc) : Svc × Except Thrown Reader :=
  match discoverReaders env.discoverEnv
      (if v1.state.isConnected then (disconnect env.discEnv v1).1 else v1) with
  | (v3, .failure _) =>
      (v3, .error (.te { code := .NO_READERS_FOUND, message := "No available readers found" }))
  | (v3, .success readers) =>
      match readers with
      | [] =>
          (v3, .error (.te { code := .NO_READERS_FOUND
                             message := "No available readers found" }))
      | r :: _ =>
          match connectReader r env.connectEnv v3 with
          | (v4, .failure e, _) =>
              (v4, .error (.te { code := .READER_CONNECTION_FAILED, message := e.message }))
          | (v4, .success rd, _) => (v4, .ok rd)

/-- Embeds TerminalService.connectAndInitializeReader: initialize if
not initialized (propagating its throw as-is), then run the
disconnect-discover-connect tail. -/
def connectAndInitializeReader (env : CAIEnv) (v : Svc) : Svc × Except Thrown Reader :=
  if v.state.isInitialized = false then
    match initializeService env.initEnv v with
    | (v1, some m) => (v1, .error (.raw m))
    | (v1, none) => connectAndInitializeRest env v1
  else connectAndInitializeRest env v

end TerminalService

/-- One TerminalService operation together with the outcome of every
external call made during it. The first six constructors are the
Connection Controller operations; the last three are the Payment Flow
Controller operations. -/
inductive AnyOp where
  | initializeOp (env : Except String Unit)
  | discoverOp (env : DiscoverEnv)
  | connectOp (r : Reader) (env : Except String SdkConnectResult)
  | connectAndInitOp (env : TerminalService.CAIEnv)
  | disconnectOp (env : Except String Unit)
  | unexpectedDisconnectOp
  | createIntentOp (amount : ℚ) (currency : String) (resp : Except String (Option PaymentIntent))
  | collectOp (timeoutMs : ℕ) (env : Except String PaymentIntent)
  | processOp (env : Except String SdkProcessResult)
  deriving DecidableEq, Repr

/-- State effect of one operation, discarding its returned value. -/
def applyOp (op : AnyOp) (v : Svc) : Svc :=
  match op with
  | .initializeOp env => (TerminalService.initializeService env v).1
  | .discoverOp env => (TerminalService.discoverReaders env v).1
  | .connectOp r env => (TerminalService.connectReader r env v).1
  | .connectAndInitOp env => (TerminalService.connectAndInitializeReader env v).1
  | .disconnectOp env => (TerminalService.disconnect env v).1
  | .unexpectedDisconnectOp => TerminalService.onUnexpectedReaderDisconnect v
  | .createIntentOp amount currency resp =>
      (TerminalService.createPaymentIntent amount currency resp v).1
  | .collectOp timeoutMs env => (TerminalService.collectPaymentMethod timeoutMs env v).1
  | .processOp env => (TerminalService.processPayment env v).1

/-- Runs a sequence of operations from a starting service state. -/
def runOps : List AnyOp → Svc → Svc
  | [], v => v
  | op :: rest, v => runOps rest (applyOp op v)

/-- The six Connection Controller operations named by the session
invariant claim. -/
def AnyOp.connectionOp : AnyOp → Bool
  | .initializeOp _ => true
  | .discoverOp _ => true
  | .connectOp _ _ => true
  | .connectAndInitOp _ => true
  | .disconnectOp _ => true
  | .unexpectedDisconnectOp => true
  | _ => false

/-- Operations that do not run the disconnect path: every operation
except disconnect itself and connectAndInitializeReader (which calls
disconnect internally when already connected). -/
def AnyOp.avoidsDisconnect : AnyOp → Bool
  | .disconnectOp _ => false
  | .connectAndInitOp _ => false
  | _ => true

/-- The session invariant claimed by the specification. -/
def sessionInvariant (s : SessionState) : Prop :=
  s.isConnected = true → s.currentReader ≠ none

instance (s : SessionState) : Decidable (sessionInvariant s) := by
  unfold sessionInvariant; infer_instance

namespace StripeTerminalService

/-- Reactive state of StripeTerminalService. -/
structure StsState where
  isConnected : Bool
  isLoading : Bool
  lastError : Option String
  currentReader : Option Reader
  deriving DecidableEq, Repr

/-- Output of one connectToReader run: the new state, the resolved
reader or the thrown error message, and the trace of device-SDK
commands issued during the call. -/
structure ConnectOutput where
  state : StsState
  outcome : Except String Reader
  cmds : List SdkCmd
  deriving DecidableEq, Repr

/-- The guard of the same-reader no-op in connectToReader: already
connected and the current reader has the same id as the argument. -/
def sameReaderId (s : StsState) (r : Reader) : Bool :=
  s.isConnected && ((s.currentReader.map Reader.id) == some r.id)

/-- Embeds StripeTerminalService.connectToReader. The terminal flag is
whether the terminal handle exists after the initial initialize-if-null
step (false models the path that throws before touching the SDK). If
already connected to a reader with the same id the call returns the
argument immediately with no SDK command. Otherwise the SDK connect
call is issued directly; there is no disconnect of the existing
connection anywhere in the method. On success currentReader becomes
the SDK reader if present, else the argument, and isConnected becomes
true; errors are rethrown after handleError records lastError; the
finally clause resets isLoading. -/
def connectToReader (terminal : Bool) (s : StsState) (r : Reader)
    (sdk : Except String SdkConnectResult) : ConnectOutput :=
  if terminal = false then
    { state := s, outcome := .error "Terminal initialization failed", cmds := [] }
  else if sameReaderId s r then
    { state := s, outcome := .ok r, cmds := [] }
  else
    match sdk with
    | .error m =>
        { state := { s with
            isLoading := false,
            lastError := some ("Failed to connect to reader: " ++ m ++ " || error") },
          outcome := .error m, cmds := [.connect r] }
    | .ok res =>
        match res.error with
        | some m =>
            { state := { s with
                isLoading := false,
                lastError := some ("Failed to connect to reader: Error connecting to reader: "
                  ++ m ++ " || error") },
              outcome := .error ("Error connecting to reader: " ++ m),
              cmds := [.connect r] }
        | none =>
            { state := { s with
                isLoading := false,
                currentReader := some (res.reader.getD r), isConnected := true },
              outcome := .ok (res.reader.getD r), cmds := [.connect r] }

/-- Which of the raced events settles the awaited collection first:
the controller timeout, the SDK collect call resolving, or the SDK
collect call rejecting. -/
inductive RaceOutcome where
  | timedOut
  | sdkResolved (res : PaymentIntent)
  | sdkRejected (msg : String)
  deriving DecidableEq, Repr

/-- Environment of one StripeTerminalService.collectPaymentMethod run:
the race outcome and the outcome of the best-effort cancel command
issued on the failure path. -/
structure CollectEnv where
  race : RaceOutcome
  cancelOutcome : Except String Unit
  deriving DecidableEq, Repr

/-- Output of one collectPaymentMethod run: the resolved payment
intent or the rethrown error, and how many cancel-collection commands
were issued to the device SDK. -/
structure CollectOutput where
  outcome : Except String PaymentIntent
  cancelCalls : ℕ
  deriving DecidableEq, Repr

/-- Embeds StripeTerminalService.collectPaymentMethod: with no
terminal handle it throws before the try block (no cancel issued).
Otherwise the SDK collect call is raced against a timeout of timeoutMs
milliseconds. If the SDK resolves first, its paymentIntent field is
returned. If the timeout fires first or the SDK rejects, the catch
block issues exactly one cancelCollectPaymentMethod command, swallows
that commands own outcome (cancelOutcome is never inspected), and
rethrows the original error. -/
def collectPaymentMethod (terminal : Bool) (timeoutMs : ℕ) (env : CollectEnv) : CollectOutput :=
  if terminal = false then
    { outcome := .error "Terminal is not initialized", cancelCalls := 0 }
  else
    match env.race with
    | .sdkResolved res => { outcome := .ok res, cancelCalls := 0 }
    | .sdkRejected m => { outcome := .error m, cancelCalls := 1 }
    | .timedOut => { outcome := .error "Payment collection timed out", cancelCalls := 1 }

end StripeTerminalService

/-- Embeds cancelPaymentCollection from the payment-cancellation
document (the method HomePage calls from its cancel handler): with no
terminal handle it warns and returns false; otherwise it issues the
SDK cancel command, returning true when it resolves and false when it
rejects. Every throw is caught, so the call always resolves with a
boolean (the Except layer records that nothing escapes). -/
def cancelPaymentCollection (terminal : Bool) (sdkCancel : Except String Unit) :
    Except String Bool :=
  if terminal = false then .ok false
  else
    match sdkCancel with
    | .ok _ => .ok true
    | .error _ => .ok false

namespace HomePage

/-- Outcome of one handlePayment run as the user sees it: success UI,
cancellation (caught error whose message mentions cancellation, which
shows no error UI), or failure UI with a message. -/
inductive PaymentOutcome where
  | successOutcome
  | cancelledOutcome
  | failedOutcome (msg : String)
  deriving DecidableEq, Repr

/-- Whether sub occurs as a contiguous run inside a character list. -/
def charListIncludes (sub : List Char) : List Char → Bool
  | [] => sub.isEmpty
  | c :: rest => List.isPrefixOf sub (c :: rest) || charListIncludes sub rest

/-- JavaScript String.prototype.includes. -/
def jsIncludes (s sub : String) : Bool := charListIncludes sub.toList s.toList

/-- The catch block of handlePayment: an error message containing
cancelled or canceled is treated as a user cancellation and shows no
error UI; anything else is a failure. -/
def classifyCatch (msg : String) : PaymentOutcome :=
  if jsIncludes msg "cancelled" || jsIncludes msg "canceled" then .cancelledOutcome
  else .failedOutcome msg

/-- Environment of one handlePayment run, starting from a connected
terminal: the Result of each controller call it awaits, and whether
the cancel handler (or a modal dismissal before collection completed)
set the paymentCancelled flag while the collection was in flight. -/
structure HandlePaymentEnv where
  createResult : Result PaymentIntent
  collectResult : Result PaymentIntent
  cancelDuringCollect : Bool
  processResult : Result (Option PaymentIntent)
  deriving DecidableEq, Repr

/-- Observable outcome of one handlePayment run: what the user is
shown, and whether processPayment was invoked. -/
structure HandlePaymentOutput where
  outcome : PaymentOutcome
  processCalled : Bool
  deriving DecidableEq, Repr

/-- Embeds the payment flow of handlePayment in HomePage: create the
intent, collect the payment method, then check the paymentCancelled
flag before processing; a set flag throws the cancellation error, so
processPayment is never reached and the catch classifies the run as
cancelled. Each failed Result is thrown as an Error carrying the
Result error message. -/
def handlePayment (env : HandlePaymentEnv) : HandlePaymentOutput :=
  match env.createResult with
  | .failure e => { outcome := classifyCatch e.message, processCalled := false }
  | .success _ =>
      match env.collectResult with
      | .failure e => { outcome := classifyCatch e.message, processCalled := false }
      | .success _ =>
          if env.cancelDuringCollect then
            { outcome := classifyCatch "Payment was cancelled", processCalled := false }
          else
            match env.processResult with
            | .failure e => { outcome := classifyCatch e.message, processCalled := true }
            | .success _ => { outcome := .successOutcome, processCalled := true }

end HomePage

/-- A concrete discovered reader used in the concrete runs below. -/
def readerA : Reader := { id := "A", label := "Reader A" }

/-- A second concrete reader with a different id. -/
def readerB : Reader := { id := "B", label := "Reader B" }

/-- Connection Controller run: a successful initialize, a successful
connect to readerA, then a successful disconnect. -/
def initConnectDisconnect : List AnyOp :=
  [ .initializeOp (.ok ()),
    .connectOp readerA (.ok { error := none, reader := none }),
    .disconnectOp (.ok ()) ]

/-- Connection Controller run with no disconnect: a successful
initialize, a failed discovery, then a successful connect to readerA. -/
def initDiscoverConnect : List AnyOp :=
  [ .initializeOp (.ok ()),
    .discoverOp { locResp := .ok none, sdk := .ok { error := none, discoveredReaders := none } },
    .connectOp readerA (.ok { error := none, reader := some readerA }) ]

/-- A TerminalService state connected to readerA with the handle set. -/
def connectedSvc : Svc :=
  { state := { initialState with
      isInitialized := true, isConnected := true, currentReader := some readerA },
    terminal := true }

/-- A StripeTerminalService state connected to readerA. -/
def stsConnectedA : StripeTerminalService.StsState :=
  { isConnected := true, isLoading := false, lastError := none, currentReader := some readerA }

/-- A concrete payment-intent snapshot used in the concrete runs. -/
def piA : PaymentIntent :=
  { id := "pi_1", amount := 2000, currency := "eur", client_secret := "cs_1",
    status := "requires_payment_method" }

/-- A handlePayment environment where the intent is created, the
collection resolves successfully at the SDK layer, and the cancel flag
was raised while the collection was in flight. -/
def cancelledRunEnv : HomePage.HandlePaymentEnv :=
  { createResult := .success piA, collectResult := .success piA,
    cancelDuringCollect := true, processResult := .success none }

/-- Every operation other than disconnect and connectAndInitializeReader
preserves the session invariant. -/
theorem applyOp_preserves_invariant (op : AnyOp) (v : Svc)
    (hop : op.avoidsDisconnect = true) (h : sessionInvariant v.state) :
    sessionInvariant (applyOp op v).state := by
  cases op with
  | initializeOp env =>
      cases env <;> simpa [applyOp, TerminalService.initializeService, sessionInvariant] using h
  | discoverOp env =>
      simp only [applyOp, TerminalService.discoverReaders]
      split <;> try split
      all_goals first
        | simpa [sessionInvariant] using h
        | (split <;> simpa [sessionInvariant] using h)
  | connectOp r env =>
      simp only [applyOp, TerminalService.connectReader]
      split
      · simpa [sessionInvariant] using h
      · split <;> simp [sessionInvariant]
        simpa using h
  | connectAndInitOp env => simp [AnyOp.avoidsDisconnect] at hop
  | disconnectOp env => simp [AnyOp.avoidsDisconnect] at hop
  | unexpectedDisconnectOp =>
      simp [applyOp, TerminalService.onUnexpectedReaderDisconnect, sessionInvariant]
  | createIntentOp amount currency resp =>
      simp only [applyOp, TerminalService.createPaymentIntent]
      split <;> simpa [sessionInvariant] using h
  | collectOp timeoutMs env =>
      simp only [applyOp, TerminalService.collectPaymentMethod]
      split
      · simpa [sessionInvariant] using h
      · split <;> simpa [sessionInvariant] using h
  | processOp env =>
      simp only [applyOp, TerminalService.processPayment]
      split <;> try split
      all_goals simpa [sessionInvariant] using h

/-- The session invariant is inductive over runs that avoid the
disconnect path. -/
theorem runOps_preserves_invariant :
    ∀ (ops : List AnyOp) (v : Svc), (∀ op ∈ ops, op.avoidsDisconnect = true) →
      sessionInvariant v.state → sessionInvariant (runOps ops v).state
  | [], _, _, h => h
  | op :: rest, v, hall, h =>
      runOps_preserves_invariant rest (applyOp op v)
        (fun o ho => hall o (List.mem_cons_of_mem op ho))
        (applyOp_preserves_invariant op v (hall op (List.mem_cons_self op rest)) h)

/-- C1, counterexample. The claimed invariant fails on a reachable
state: initialize, connect to readerA and disconnect, each succeeding,
are all Connection Controller operations, yet they end in a state with
isConnected still true and currentReader cleared, because disconnect
clears only currentReader and never resets isConnected. -/
theorem claim_C1_counterexample :
    (∀ op ∈ initConnectDisconnect, op.connectionOp = true) ∧
    ¬ sessionInvariant (runOps initConnectDisconnect initialSvc).state := by
  constructor
  · decide
  · decide

/-- C1, amended. The invariant isConnected implies currentReader set
holds for every state reachable by operation sequences that avoid the
disconnect path: initialize, discoverReaders, connectReader, the
unexpected-disconnect callback, and the payment-flow operations all
preserve it. A successful disconnect (alone or inside
connectAndInitializeReader when already connected) breaks it by
clearing currentReader while leaving isConnected untouched. -/
theorem claim_C1_amended (ops : List AnyOp)
    (hops : ∀ op ∈ ops, op.avoidsDisconnect = true) :
    sessionInvariant (runOps ops initialSvc).state :=
  runOps_preserves_invariant ops initialSvc hops (by decide)

/-- C1, witness for the amended theorem on a concrete disconnect-free
run: initialize, a failed discovery, then a successful connect. -/
theorem claim_C1_witness :
    sessionInvariant (runOps initDiscoverConnect initialSvc).state :=
  claim_C1_amended initDiscoverConnect (by decide)

/-- C2, counterexample. From a connected state, a disconnect whose
device call succeeds leaves isConnected true (the claim demands
false), and a disconnect whose device call fails leaves currentReader
still set (the claim demands null). -/
theorem claim_C2_counterexample :
    ((TerminalService.disconnect (.ok ()) connectedSvc).1).state.isConnected = true ∧
    ((TerminalService.disconnect (.error "boom") connectedSvc).1).state.currentReader
      = some readerA := by
  constructor <;> decide

/-- C2, amended. After disconnect() returns, isLoading is false and
isConnected is always left unchanged. When the device call succeeds,
currentReader is cleared and no error is recorded. When the device
call fails, a READER_DISCONNECTION_FAILED error is constructed and its
message recorded in lastError, but currentReader keeps its previous
value: the local state is not forced clean on either path beyond the
currentReader reset of the success path. -/
theorem claim_C2_amended (v : Svc) (m : String) :
    ((TerminalService.disconnect (.ok ()) v).1).state.isLoading = false ∧
    ((TerminalService.disconnect (.ok ()) v).1).state.isConnected = v.state.isConnected ∧
    ((TerminalService.disconnect (.ok ()) v).1).state.currentReader = none ∧
    (TerminalService.disconnect (.ok ()) v).2 = none ∧
    ((TerminalService.disconnect (.error m) v).1).state.isLoading = false ∧
    ((TerminalService.disconnect (.error m) v).1).state.isConnected = v.state.isConnected ∧
    ((TerminalService.disconnect (.error m) v).1).state.currentReader = v.state.currentReader ∧
    ((TerminalService.disconnect (.error m) v).1).state.lastError = some m ∧
    (TerminalService.disconnect (.error m) v).2
      = some { code := .READER_DISCONNECTION_FAILED, message := m } := by
  refine ⟨rfl, rfl, rfl, rfl, rfl, rfl, rfl, rfl, rfl⟩

/-- Every operation leaves isLoading false if it was false before it
started: the operations that raise it always lower it again in their
finally clauses, on success and failure paths alike, and the
operations that never touch it preserve it. -/
theorem initializeService_isLoading (env : Except String Unit) (v : Svc) :
    ((TerminalService.initializeService env v).1).state.isLoading = false := by
  cases env <;> rfl

/-- discoverReaders always ends with isLoading false. -/
theorem discoverReaders_isLoading (env : DiscoverEnv) (v : Svc) :
    ((TerminalService.discoverReaders env v).1).state.isLoading = false := by
  unfold TerminalService.discoverReaders
  split
  · rfl
  · split
    · rfl
    · split <;> rfl

/-- connectReader always ends with isLoading false. -/
theorem connectReader_isLoading (r : Reader) (env : Except String SdkConnectResult) (v : Svc) :
    ((TerminalService.connectReader r env v).1).state.isLoading = false := by
  unfold TerminalService.connectReader
  split
  · rfl
  · split <;> rfl

/-- disconnect always ends with isLoading false. -/
theorem disconnect_isLoading (env : Except String Unit) (v : Svc) :
    ((TerminalService.disconnect env v).1).state.isLoading = false := by
  cases env <;> rfl

/-- createPaymentIntent always ends with isLoading false. -/
theorem createPaymentIntent_isLoading (amount : ℚ) (currency : String)
    (resp : Except String (Option PaymentIntent)) (v : Svc) :
    ((TerminalService.createPaymentIntent amount currency resp v).1).state.isLoading = false := by
  unfold TerminalService.createPaymentIntent
  split <;> rfl

/-- processPayment always ends with isLoading false. -/
theorem processPayment_isLoading (env : Except String SdkProcessResult) (v : Svc) :
    ((TerminalService.processPayment env v).1).state.isLoading = false := by
  unfold TerminalService.processPayment
  split
  · rfl
  · split <;> rfl

/-- The disconnect-discover-connect tail of connectAndInitializeReader
always ends with isLoading false: every exit point is the post-state
of an operation whose finally clause resets it. -/
theorem connectAndInitializeRest_isLoading (env : TerminalService.CAIEnv) (v1 : Svc) :
    ((TerminalService.connectAndInitializeRest env v1).1).state.isLoading = false := by
  unfold TerminalService.connectAndInitializeRest
  split
  · rename_i v3 e heq
    have h3 := discoverReaders_isLoading env.discoverEnv
      (if v1.state.isConnected then (TerminalService.disconnect env.discEnv v1).1 else v1)
    rw [heq] at h3
    exact h3
  · rename_i v3 readers heq
    split
    · have h3 := discoverReaders_isLoading env.discoverEnv
        (if v1.state.isConnected then (TerminalService.disconnect env.discEnv v1).1 else v1)
      rw [heq] at h3
      exact h3
    · rename_i r rest
      split
      · rename_i v4 e cmds heq2
        have h4 := connectReader_isLoading r env.connectEnv v3
        rw [heq2] at h4
        exact h4
      · rename_i v4 rd cmds heq2
        have h4 := connectReader_isLoading r env.connectEnv v3
        rw [heq2] at h4
        exact h4

/-- connectAndInitializeReader always ends with isLoading false. -/
theorem connectAndInitializeReader_isLoading (env : TerminalService.CAIEnv) (v : Svc) :
    ((TerminalService.connectAndInitializeReader env v).1).state.isLoading = false := by
  unfold TerminalService.connectAndInitializeReader
  split
  · split
    · rename_i v1 m heq
      have h1 := initializeService_isLoading env.initEnv v
      rw [heq] at h1
      exact h1
    · exact connectAndInitializeRest_isLoading env _
  · exact connectAndInitializeRest_isLoading env v

theorem applyOp_isLoading (op : AnyOp) (v : Svc) (h : v.state.isLoading = false) :
    (applyOp op v).state.isLoading = false := by
  cases op with
  | initializeOp env => exact initializeService_isLoading env v
  | discoverOp env => exact discoverReaders_isLoading env v
  | connectOp r env => exact connectReader_isLoading r env v
  | connectAndInitOp env => exact connectAndInitializeReader_isLoading env v
  | disconnectOp env => exact disconnect_isLoading env v
  | unexpectedDisconnectOp =>
      simpa [applyOp, TerminalService.onUnexpectedReaderDisconnect] using h
  | createIntentOp amount currency resp => exact createPaymentIntent_isLoading amount currency resp v
  | collectOp timeoutMs env =>
      simp only [applyOp, TerminalService.collectPaymentMethod]
      split
      · simpa using h
      · split <;> simpa using h
  | processOp env => exact processPayment_isLoading env v

/-- Runs from a non-loading state end in a non-loading state. -/
theorem runOps_isLoading :
    ∀ (ops : List AnyOp) (v : Svc), v.state.isLoading = false →
      (runOps ops v).state.isLoading = false
  | [], _, h => h
  | op :: rest, v, h => runOps_isLoading rest (applyOp op v) (applyOp_isLoading op v h)

/-- C5, confirmed. For every sequence of controller operations run
from a fresh service, each with any outcome of its external calls
(success, failure Result, or throw), the resulting state has isLoading
false: every operation that raises isLoading resets it in a finally
clause on all paths, and no failure path leaves it true. -/
theorem claim_C5_isLoading_reset (ops : List AnyOp) :
    (runOps ops initialSvc).state.isLoading = false :=
  runOps_isLoading ops initialSvc rfl

/-- C3, counterexample. When the timeout fires before the SDK collect
call settles, the timeout-racing implementation does not resolve with
a failure Result at all: it rejects with the timeout error (after
issuing its one cancel command). The Result-returning implementation
never issues any cancel-collection command, here shown on a rejected
SDK call. -/
theorem claim_C3_counterexample :
    (StripeTerminalService.collectPaymentMethod true 25000
        { race := .timedOut, cancelOutcome := .ok () }).outcome
      = .error "Payment collection timed out" ∧
    (StripeTerminalService.collectPaymentMethod true 25000
        { race := .timedOut, cancelOutcome := .ok () }).cancelCalls = 1 ∧
    ((TerminalService.collectPaymentMethod 60000 (.error "card removed") connectedSvc).2).2
      = [] :=
  ⟨rfl, rfl, rfl⟩

/-- C3, amended. If the timeout fires before the SDK collect call
settles, the timeout-racing implementation issues exactly one
best-effort cancel-collection command, swallows any outcome of that
command (the result is independent of it), and rejects with the
timeout error rather than resolving with a failure Result. The
Result-returning implementation imposes no timeout at all: its result
is independent of the timeoutMs argument and it never issues a
cancel-collection command. -/
theorem claim_C3_amended :
    (∀ (cancelOutcome : Except String Unit) (t : ℕ),
      (StripeTerminalService.collectPaymentMethod true t
          { race := .timedOut, cancelOutcome := cancelOutcome }).outcome
        = .error "Payment collection timed out" ∧
      (StripeTerminalService.collectPaymentMethod true t
          { race := .timedOut, cancelOutcome := cancelOutcome }).cancelCalls = 1) ∧
    (∀ (t1 t2 : ℕ) (env : Except String PaymentIntent) (v : Svc),
      TerminalService.collectPaymentMethod t1 env v
        = TerminalService.collectPaymentMethod t2 env v ∧
      ((TerminalService.collectPaymentMethod t1 env v).2).2 = []) := by
  refine ⟨fun cancelOutcome t => ⟨rfl, rfl⟩, fun t1 t2 env v => ⟨rfl, ?_⟩⟩
  unfold TerminalService.collectPaymentMethod
  split
  · rfl
  · split <;> rfl

/-- C4, confirmed. If the payment intent was created, the collection
resolved successfully at the SDK layer, and the cancel flag was raised
while the collection was in flight, the flow throws the cancellation
error before reaching processPayment: the run reports cancellation,
not success, and processPayment is never invoked. -/
theorem claim_C4_cancel_wins (env : HomePage.HandlePaymentEnv) (pi0 pim : PaymentIntent)
    (hcreate : env.createResult = .success pi0)
    (hcollect : env.collectResult = .success pim)
    (hcancel : env.cancelDuringCollect = true) :
    HomePage.handlePayment env
      = { outcome := .cancelledOutcome, processCalled := false } := by
  have hclass : HomePage.classifyCatch "Payment was cancelled"
      = HomePage.PaymentOutcome.cancelledOutcome := by decide
  unfold HomePage.handlePayment
  rw [hcreate, hcollect]
  simp [hcancel, hclass]

/-- C4, witness: the concrete cancelled run. -/
theorem claim_C4_witness :
    HomePage.handlePayment cancelledRunEnv
      = { outcome := .cancelledOutcome, processCalled := false } :=
  claim_C4_cancel_wins cancelledRunEnv piA piA rfl rfl rfl

/-- C6, code evaluation for the code_bug record. On a location
response with a missing id, with an empty id, and on a transport
error, getLocationId resolves (never throws) with a failure Result
whose code is READER_CONNECTION_FAILED, not the LOCATION_ID_FETCH_FAILED
the claim requires. -/
theorem claim_C6_location_code :
    ApiClient.getLocationId (.ok none)
      = .failure { code := .READER_CONNECTION_FAILED
                   message := "Invalid location ID response" } ∧
    ApiClient.getLocationId (.ok (some ""))
      = .failure { code := .READER_CONNECTION_FAILED
                   message := "Invalid location ID response" } ∧
    ApiClient.getLocationId (.error "Network Error")
      = .failure { code := .READER_CONNECTION_FAILED
                   message := "An unknown error occurred" } := by
  refine ⟨rfl, by decide, rfl⟩

/-- C7, counterexample. Connected to readerA, connecting to readerB
issues only the SDK connect command: no disconnect command precedes
it, contradicting the claimed disconnect-first behavior. Moreover the
Result-returning TerminalService.connectReader issues the SDK connect
call even when already connected to the same reader id, contradicting
the claimed same-id no-op for that implementation. -/
theorem claim_C7_counterexample :
    (StripeTerminalService.connectToReader true stsConnectedA readerB
        (.ok { error := none, reader := none })).cmds = [SdkCmd.connect readerB] ∧
    SdkCmd.disconnectCmd ∉ (StripeTerminalService.connectToReader true stsConnectedA readerB
        (.ok { error := none, reader := none })).cmds ∧
    ((TerminalService.connectReader readerA (.ok { error := none, reader := none })
        connectedSvc).2).2 = [SdkCmd.connect readerA] := by
  refine ⟨by decide, by decide, by decide⟩

/-- C7, amended. connectToReader with a live terminal handle: when
already connected to a reader with the same id it is a no-op resolving
with the argument reader and issuing no SDK command; otherwise it
issues exactly the SDK connect command, never a disconnect of the
existing connection, and on a clean resolution it sets currentReader
(to the SDK reader if present, else the argument) and isConnected. -/
theorem claim_C7_amended (s : StripeTerminalService.StsState) (r : Reader)
    (sdk : Except String SdkConnectResult) :
    (StripeTerminalService.sameReaderId s r = true →
      StripeTerminalService.connectToReader true s r sdk
        = { state := s, outcome := .ok r, cmds := [] }) ∧
    (StripeTerminalService.sameReaderId s r = false →
      (StripeTerminalService.connectToReader true s r sdk).cmds = [.connect r] ∧
      SdkCmd.disconnectCmd ∉ (StripeTerminalService.connectToReader true s r sdk).cmds) ∧
    (∀ res, sdk = .ok res → res.error = none →
      StripeTerminalService.sameReaderId s r = false →
      (StripeTerminalService.connectToReader true s r sdk).state.currentReader
          = some (res.reader.getD r) ∧
      (StripeTerminalService.connectToReader true s r sdk).state.isConnected = true) := by
  refine ⟨?_, ?_, ?_⟩
  · intro hsame
    unfold StripeTerminalService.connectToReader
    simp [hsame]
  · intro hdiff
    unfold StripeTerminalService.connectToReader
    simp only [hdiff]
    cases sdk with
    | error m => simp
    | ok res => cases hres : res.error <;> simp [hres]
  · intro res hsdk hres hdiff
    subst hsdk
    unfold StripeTerminalService.connectToReader
    simp [hdiff, hres]

/-- C7, witness for the amended theorem: connected to readerA,
connecting to readerB issues only the connect command. -/
theorem claim_C7_witness :
    (StripeTerminalService.connectToReader true stsConnectedA readerB
        (.ok { error := none, reader := some readerB })).cmds = [.connect readerB] ∧
    SdkCmd.disconnectCmd ∉ (StripeTerminalService.connectToReader true stsConnectedA readerB
        (.ok { error := none, reader := some readerB })).cmds :=
  (claim_C7_amended stsConnectedA readerB
    (.ok { error := none, reader := some readerB })).2.1 (by decide)

/-- C8, confirmed. cancelPaymentCollection always resolves with a
boolean and never rejects; with no terminal handle it resolves false
without touching the SDK, and whenever the SDK cancel command rejects
(in particular when no collection is outstanding) it also resolves
false. -/
theorem claim_C8_cancel_noop (terminal : Bool) (sdkCancel : Except String Unit) :
    (∃ b, cancelPaymentCollection terminal sdkCancel = .ok b) ∧
    (terminal = false → cancelPaymentCollection terminal sdkCancel = .ok false) ∧
    (∀ m, sdkCancel = .error m → cancelPaymentCollection terminal sdkCancel = .ok false) := by
  refine ⟨?_, ?_, ?_⟩
  · cases terminal <;> cases sdkCancel <;> exact ⟨_, rfl⟩
  · intro ht
    subst ht
    rfl
  · intro m hm
    subst hm
    cases terminal <;> rfl

/-- C8, witness: calling cancel with no outstanding collection, where
the SDK cancel command rejects, resolves false. -/
theorem claim_C8_witness :
    cancelPaymentCollection true (.error "no active collection") = .ok false :=
  (claim_C8_cancel_noop true (.error "no active collection")).2.2 "no active collection" rfl

/-- C9, confirmed. For every amount, the request body built by
createPaymentIntent carries the minor-unit amount rounded half-up
(floor of a times 100 plus one half); in particular 19.999 is sent as
2000, and the tie 0.125 rounds up to 13. -/
theorem claim_C9_rounding :
    (∀ (a : ℚ) (c : String) (resp : Except String (Option PaymentIntent)),
      ((ApiClient.createPaymentIntent a c resp).1).amount = ⌊a * 100 + 1/2⌋) ∧
    (∀ (c : String) (resp : Except String (Option PaymentIntent)),
      ((ApiClient.createPaymentIntent ((19999 : ℚ)/1000) c resp).1).amount = 2000) ∧
    (∀ (c : String) (resp : Except String (Option PaymentIntent)),
      ((ApiClient.createPaymentIntent ((1 : ℚ)/8) c resp).1).amount = 13) := by
  refine ⟨fun a c resp => rfl, fun c resp => ?_, fun c resp => ?_⟩
  · show jsRound ((19999 : ℚ)/1000 * 100) = 2000
    norm_num [jsRound, Int.floor_eq_iff]
  · show jsRound ((1 : ℚ)/8 * 100) = 13
    norm_num [jsRound, Int.floor_eq_iff]

/-- C10, confirmed. Every failure Result of discoverReaders carries
NO_READERS_FOUND, and a failed location-id fetch in particular is
rewrapped: the LOCATION_ID_FETCH_FAILED throw is caught by the same
method and surfaces to the caller as NO_READERS_FOUND with the
location-error message. -/
theorem claim_C10_discover_failures (env : DiscoverEnv) (v : Svc) :
    (∀ e, (TerminalService.discoverReaders env v).2 = .failure e →
      e.code = .NO_READERS_FOUND) ∧
    (∀ e, ApiClient.getLocationId env.locResp = .failure e →
      (TerminalService.discoverReaders env v).2
        = .failure { code := .NO_READERS_FOUND, message := e.message }) := by
  constructor
  · intro e he
    unfold TerminalService.discoverReaders at he
    repeat' split at he
    all_goals simp_all
    all_goals rw [← he]
  · intro e he
    unfold TerminalService.discoverReaders
    rw [he]

/-- C10, witness: a location response with a missing id makes
discoverReaders fail with NO_READERS_FOUND. -/
theorem claim_C10_witness :
    (TerminalService.discoverReaders
        { locResp := .ok none
          sdk := .ok { error := none, discoveredReaders := some [readerA] } } initialSvc).2
      = .failure { code := .NO_READERS_FOUND, message := "Invalid location ID response" } :=
  (claim_C10_discover_failures
      { locResp := .ok none
        sdk := .ok { error := none, discoveredReaders := some [readerA] } } initialSvc).2
    { code := .READER_CONNECTION_FAILED, message := "Invalid location ID response" } rfl

end Terminal
